import Mathlib

/-!
# Verification of the SpamGuard model lifecycle and inference engine

Shallow embedding of `backend/app/services/ml.py` (class `MLService`): the
model store (a directory of pickled artifacts), the training pipeline
(`train_model`), the inference pipeline (`predict` with `_preprocess_text`
and `_generate_explanation`), bootstrap (`_create_default_model`,
`_load_latest_model`) and listing (`list_models`).

Modelling conventions:
* Python floats are embedded as `ℚ`; none of the verified properties depends
  on floating-point rounding.
* scikit-learn calls are embedded by their documented input/output contract
  (see the doc comment on each definition).
* The filesystem (`self.models_dir`) is a list of named files carrying a
  modification time (`st_mtime`, embedded as `Nat`) and their pickled
  content; `pickle.load` on corrupt bytes raises, embedded as a `corrupt`
  content tag.
-/

namespace SpamGuard

/-- Errors surfaced by the service.  `valueError` and `ioError` are the
exceptions actually raised by the Python code and its libraries;
`modelNotFound` and `insufficientData` are the `ModelNotFoundError` /
`InsufficientDataError` of the specification's error taxonomy, included so
that claims about them are expressible (the source defines neither). -/
inductive PyError where
  | valueError (msg : String)
  | ioError (msg : String)
  | modelNotFound (version : String)
  | insufficientData
  deriving Repr, DecidableEq

/-- `Except.isOk` as a plain boolean test. -/
def exceptIsOk {ε α : Type} : Except ε α → Bool
  | .ok _ => true
  | .error _ => false

instance {ε α : Type} [DecidableEq ε] [DecidableEq α] :
    DecidableEq (Except ε α)
  | .ok a, .ok b =>
    if h : a = b then .isTrue (by rw [h])
    else .isFalse (fun hh => by cases hh; exact h rfl)
  | .error a, .error b =>
    if h : a = b then .isTrue (by rw [h])
    else .isFalse (fun hh => by cases hh; exact h rfl)
  | .ok _, .error _ => .isFalse (fun hh => by cases hh)
  | .error _, .ok _ => .isFalse (fun hh => by cases hh)

/-! ### String primitives

The Python string operations are embedded structurally over the character
list underlying a `String`, so that every definition evaluates by kernel
reduction. -/

def charLower (c : Char) : Char :=
  if 'A' ≤ c ∧ c ≤ 'Z' then Char.ofNat (c.toNat + 32) else c

/-- Python `str.lower()` (the texts involved are ASCII, where mapping
`charLower` and Python's `str.lower` agree). -/
def pyLower (s : String) : String := ⟨s.data.map charLower⟩

/-- Maximal runs of non-whitespace characters. -/
def splitWsL (cs : List Char) : List (List Char) :=
  (cs.foldr (fun c acc =>
    if c.isWhitespace then [] :: acc
    else match acc with
      | [] => [[c]]
      | g :: gs => (c :: g) :: gs) ([] : List (List Char))).filter
    (fun g => g ≠ [])

/-- Python `str.split()` with no argument: split on runs of whitespace,
dropping empty pieces. -/
def pySplitWs (s : String) : List String :=
  (splitWsL s.data).map (fun l => ⟨l⟩)

def joinWith (sep : List Char) : List (List Char) → List Char
  | [] => []
  | [g] => g
  | g :: gs => g ++ sep ++ joinWith sep gs

/-- Python `' '.join(ts)`. -/
def joinSpace (ts : List String) : String :=
  ⟨joinWith [' '] (ts.map (fun t => t.data))⟩

def listStartsWith : List Char → List Char → Bool
  | [], _ => true
  | _ :: _, [] => false
  | a :: as, b :: bs => a == b && listStartsWith as bs

/-- Python `str.endswith` / `Path.suffix` test. -/
def strEndsWith (s suffix : String) : Bool :=
  listStartsWith suffix.data.reverse s.data.reverse

/-- `MLService._preprocess_text` (ml.py:116-122): lowercase, then
`' '.join(text.split())`, collapsing whitespace runs to single spaces. -/
def preprocessText (text : String) : String :=
  joinSpace (pySplitWs (pyLower text))

/-- In `MLService.train_model` (ml.py:168) the example texts are passed to
the featurizer exactly as supplied — `texts = [item['text'] for item in
training_data]` applies no transformation — so the normalization applied to
training texts is the identity. -/
def trainNormalize (s : String) : String := s

/-! ## Featurizer: TfidfVectorizer(max_features=5000, stop_words='english') -/

/-- A representative subset of scikit-learn's built-in English stop-word
list; the verified claims do not depend on which tokens are discarded. -/
def engStopWords : List String :=
  ["a", "an", "and", "at", "is", "it", "of", "the", "this", "to", "your"]

/-- The vectorizer's internal analyzer: it lowercases (`lowercase=True`) and
tokenizes (token extraction modeled as whitespace splitting; the claims do
not depend on the exact token pattern), discarding stop words. -/
def tokenize (s : String) : List String :=
  (pySplitWs (pyLower s)).filter (fun t => !(engStopWords.contains t))

/-- Fitted `TfidfVectorizer` state: the vocabulary learned from the fit
corpus. -/
structure Vectorizer where
  vocab : List String
  deriving Repr, DecidableEq

/-- Vocabulary building at fit time: the distinct tokens of the corpus,
capped at `max_features=5000` (scikit-learn keeps the most frequent 5000;
the cap is never reached in any claim-relevant run). -/
def buildVocab (texts : List String) : List String :=
  ((texts.map tokenize).flatten.dedup).take 5000

/-- `TfidfVectorizer.transform` on a single document: the feature vector
over the fitted vocabulary.  Tf-idf weighting is modeled as raw term
frequency — no verified claim depends on the idf scaling — and
out-of-vocabulary tokens are ignored, as in scikit-learn. -/
def transform (v : Vectorizer) (text : String) : List ℚ :=
  v.vocab.map (fun w => ((tokenize text).count w : ℚ))

/-- `TfidfVectorizer.fit_transform`: learn a vocabulary, then transform the
corpus.  scikit-learn raises `ValueError` when the learned vocabulary is
empty (in particular on an empty corpus). -/
def fitTransform (texts : List String) :
    Except PyError (Vectorizer × List (List ℚ)) :=
  let vocab := buildVocab texts
  if vocab = [] then
    .error (.valueError
      "empty vocabulary; perhaps the documents only contain stop words")
  else
    let v : Vectorizer := ⟨vocab⟩
    .ok (v, texts.map (transform v))

/-! ## Classifier: LogisticRegression(random_state=42) -/

/-- Fitted `LogisticRegression` state: coefficient vector and intercept. -/
structure Classifier where
  weights : List ℚ
  intercept : ℚ
  deriving Repr, DecidableEq

def dotQ : List ℚ → List ℚ → ℚ
  | [], _ => 0
  | _, [] => 0
  | a :: as, b :: bs => a * b + dotQ as bs

/-- `decision_function`: the linear score `w · x + b`. -/
def decisionFun (c : Classifier) (x : List ℚ) : ℚ :=
  dotQ c.weights x + c.intercept

/-- The logistic link `1/(1+exp(-d))` of `predict_proba`, embedded as a
computable rational squashing function with the same order-theoretic
behaviour: value `1/2` exactly at `d = 0`, strictly increasing, strict range
`(0, 1)`, above `1/2` exactly when `d > 0`.  The verified claims depend only
on these properties, never on the numeric value of the link. -/
def sigmaQ (d : ℚ) : ℚ := 1/2 + d / (2 * (1 + |d|))

/-- `predict_proba(X)[0][1]`: the probability assigned to class `1`
(classes are `[0, 1]`: the training labels are 0=ham / 1=spam). -/
def predictProba1 (c : Classifier) (x : List ℚ) : ℚ :=
  sigmaQ (decisionFun c x)

/-- `predict(X)[0]` for a binary problem with classes `[0, 1]`:
scikit-learn returns `classes_[(decision_function(X) > 0).astype(int)]`. -/
def predictCls (c : Classifier) (x : List ℚ) : Nat :=
  if 0 < decisionFun c x then 1 else 0

/-- Vector sum of a bag of rows (all rows share the vocabulary length). -/
def vecSum (n : Nat) (rows : List (List ℚ)) : List ℚ :=
  rows.foldl (fun acc r => List.zipWith (· + ·) acc r) (List.replicate n 0)

/-- The coefficients produced by the solver, embedded as a deterministic
function of the design matrix and labels (difference of class sums; the
actual L-BFGS optimum is not claim-relevant — only determinism and the
two-classes precondition checked in `fitCls` are). -/
def fitClsCore (X : List (List ℚ)) (y : List Nat) : Classifier :=
  let n := (X.headD []).length
  let pos := (X.zip y).filterMap (fun p => if p.2 = 1 then some p.1 else none)
  let neg := (X.zip y).filterMap (fun p => if p.2 = 1 then none else some p.1)
  ⟨List.zipWith (· - ·) (vecSum n pos) (vecSum n neg), 0⟩

/-- `LogisticRegression.fit`: scikit-learn raises `ValueError` when the
label vector contains fewer than two distinct classes. -/
def fitCls (X : List (List ℚ)) (y : List Nat) : Except PyError Classifier :=
  if (y.dedup).length < 2 then
    .error (.valueError
      "This solver needs samples of at least 2 classes in the data")
  else
    .ok (fitClsCore X y)

/-! ## Evaluation metrics (ml.py:179-184) -/

/-- The metrics dict (ml.py:190-195); the `recall` key is named
`recallScore` because `recall` is a reserved word in this development's
proof language. -/
structure Metrics where
  accuracy : ℚ
  precision : ℚ
  recallScore : ℚ
  f1 : ℚ
  deriving Repr, DecidableEq

/-- Division with the `zero_division=0` convention of the scikit-learn
metric functions. -/
def ratioZ (num den : ℚ) : ℚ := if den = 0 then 0 else num / den

/-- `accuracy_score`, `precision_score`, `recall_score`, `f1_score` on the
training-set self-evaluation, each with `zero_division=0`. -/
def computeMetrics (yTrue yPred : List Nat) : Metrics :=
  let pairs := yTrue.zip yPred
  let tp : ℚ := (pairs.filter (fun p => p.1 == 1 && p.2 == 1)).length
  let fp : ℚ := (pairs.filter (fun p => p.1 != 1 && p.2 == 1)).length
  let fn : ℚ := (pairs.filter (fun p => p.1 == 1 && p.2 != 1)).length
  let hits : ℚ := (pairs.filter (fun p => p.1 == p.2)).length
  let prec := ratioZ tp (tp + fp)
  let recl := ratioZ tp (tp + fn)
  { accuracy := ratioZ hits yTrue.length
    precision := prec
    recallScore := recl
    f1 := if prec + recl = 0 then 0 else 2 * prec * recl / (prec + recl) }

/-! ## The model store (the `models_dir` directory of pickled artifacts) -/

/-- The dict pickled by `train_model` (ml.py:187-197): vectorizer, model,
metrics, training sample count.  Note: it records no creation timestamp. -/
structure ModelData where
  vectorizer : Vectorizer
  model : Classifier
  metrics : Metrics
  training_samples : Nat
  deriving Repr, DecidableEq

/-- Bytes stored in a file: either a pickle of a `ModelData` dict, or bytes
on which `pickle.load` raises. -/
inductive FileContent where
  | valid (d : ModelData)
  | corrupt (tag : String)
  deriving Repr, DecidableEq

/-- A file in `models_dir`: name, filesystem modification time
(`st_mtime`), content. -/
structure StoredFile where
  name : String
  mtime : Nat
  content : FileContent
  deriving Repr, DecidableEq

/-- `self.models_dir.glob("*.pkl")`, in directory order. -/
def pklFiles (fs : List StoredFile) : List StoredFile :=
  fs.filter (fun f => strEndsWith f.name ".pkl")

/-- `MLService` state: the store directory plus the in-memory active
pointer `self.vectorizer` / `self.model`. -/
structure MLState where
  files : List StoredFile
  vectorizer : Option Vectorizer
  model : Option Classifier
  deriving Repr, DecidableEq

/-- Python `max(model_files, key=lambda x: x.stat().st_mtime)`: the first
file of maximal modification time. -/
def maxByMtime (f : StoredFile) (fs : List StoredFile) : StoredFile :=
  fs.foldl (fun best g => if best.mtime < g.mtime then g else best) f

/-- The file `_load_latest_model` (ml.py:37-39) selects: the `*.pkl` file
with the greatest filesystem mtime, `none` when the directory has none. -/
def latestChoice (fs : List StoredFile) : Option StoredFile :=
  match pklFiles fs with
  | [] => none
  | f :: rest => some (maxByMtime f rest)

/-- `open(path, 'wb')` followed by a full write: truncates and replaces an
existing file of the same name, otherwise creates a new directory entry. -/
def writeFile (fs : List StoredFile) (f : StoredFile) : List StoredFile :=
  if fs.any (fun g => g.name = f.name) then
    fs.map (fun g => if g.name = f.name then f else g)
  else
    fs ++ [f]

/-! ## Bootstrap: `_create_default_model` and `_load_latest_model` -/

/-- The fixed seed corpus of `_create_default_model` (ml.py:58-65). -/
def dummyTexts : List String :=
  ["This is a legitimate message", "Buy now cheap viagra",
   "Meeting at 3pm tomorrow", "Win lottery now!!!",
   "Hello friend", "URGENT: Your account is suspended"]

/-- The seed labels (ml.py:66), `0=ham, 1=spam`. -/
def dummyLabels : List Nat := [0, 1, 0, 1, 0, 1]

/-- `_create_default_model` (ml.py:52-71): fit vectorizer and classifier on
the fixed seed set and install them as the active pointer.  Nothing is
written to the store.  The two `.error` fallbacks are unreachable on the
fixed seed data (six non-empty texts, both classes present); in Python the
exception would propagate out of `__init__`. -/
def createDefaultModel (st : MLState) : MLState :=
  match fitTransform dummyTexts with
  | .error _ => st
  | .ok (v, x) =>
    match fitCls x dummyLabels with
    | .error _ => st
    | .ok c => { st with vectorizer := some v, model := some c }

/-- `_load_latest_model` (ml.py:34-50): pick the `*.pkl` file with the
greatest `st_mtime` and unpickle it; on an empty directory, or when
unpickling raises (the `except` branch), fall back to
`_create_default_model`. -/
def loadLatestModel (st : MLState) : MLState :=
  match latestChoice st.files with
  | none => createDefaultModel st
  | some latest =>
    match latest.content with
    | .valid d => { st with vectorizer := some d.vectorizer, model := some d.model }
    | .corrupt _ => createDefaultModel st

/-! ## Explanation: `_generate_explanation` -/

/-- The fixed spam keyword list (ml.py:127). -/
def spamKeywords : List String :=
  ["buy", "win", "free", "urgent", "click", "subscribe", "viagra", "lottery"]

/-- The fixed ham keyword list (ml.py:128). -/
def hamKeywords : List String :=
  ["meeting", "hello", "thanks", "schedule", "project"]

def listHasSub (needle : List Char) : List Char → Bool
  | [] => needle.isEmpty
  | b :: bs => listStartsWith needle (b :: bs) || listHasSub needle bs

/-- Python's `needle in hay` substring test. -/
def strContains (hay needle : String) : Bool :=
  listHasSub needle.data hay.data

structure Explanation where
  keywords_found : List String
  reason : String
  deriving Repr, DecidableEq

/-- `_generate_explanation` (ml.py:124-145): scan the lowercased text for
substring occurrences of the keywords of the predicted class only, and
report the matches with a count summary.  It is a pure function of
`(text, prediction)`. -/
def generateExplanation (text : String) (prediction : Nat) : Explanation :=
  let textLower := pyLower text
  let found :=
    if prediction = 1 then
      spamKeywords.filter (fun k => strContains textLower k)
    else
      hamKeywords.filter (fun k => strContains textLower k)
  { keywords_found := found
    reason := "Detected " ++ toString found.length ++ " relevant keywords" }

/-! ## Inference: `predict` -/

/-- The dict returned by `predict` (ml.py:105-110). -/
structure PredictResult where
  prediction : String
  confidence : ℚ
  explanation : Explanation
  model_version : String
  deriving Repr, DecidableEq

/-- `MLService.predict` (ml.py:73-114).  The `db`/`user_id` logging path is
a no-op in the source (`_log_prediction` is `pass`).  Note that
`model_version` is only echoed into the result dict. -/
def predict (st : MLState) (text : String) (modelVersion : String) :
    Except PyError PredictResult :=
  match st.vectorizer, st.model with
  | some v, some c =>
    let processed := preprocessText text
    let x := transform v processed
    let p1 := predictProba1 c x
    let probaVec : List ℚ := [1 - p1, p1]
    let pred := predictCls c x
    let confidence := probaVec.getD pred 0
    let explanation := generateExplanation text pred
    .ok { prediction := if pred = 1 then "spam" else "ham"
          confidence := confidence
          explanation := explanation
          model_version := modelVersion }
  | _, _ => .error (.valueError "Model not loaded")

/-! ## Training: `train_model` -/

structure TrainItem where
  text : String
  label : Nat
  deriving Repr, DecidableEq

/-- The dict returned by `train_model` (ml.py:215-219). -/
structure TrainResult where
  model_name : String
  metrics : Metrics
  training_samples : Nat
  deriving Repr, DecidableEq

/-- Ambient effects of one `train_model` call: the
`datetime.now().strftime("%Y%m%d_%H%M%S")` timestamp used for default
naming, the mtime the filesystem stamps on the written file, and whether
the `open`/`pickle.dump` of the artifact succeeds (`saveOk = false` models
a serialization or write failure raising mid-call). -/
structure TrainEnv where
  now : String
  mtime : Nat
  saveOk : Bool
  deriving Repr, DecidableEq

/-- The corpus handed to `fit_transform` in `train_model` (ml.py:168): the
raw example texts. -/
def trainCorpus (data : List TrainItem) : List String :=
  data.map (fun it => trainNormalize it.text)

/-- `MLService.train_model` (ml.py:160-223): extract texts and labels, fit
vectorizer and classifier, self-evaluate, pickle the artifact to
`<model_name>.pkl` (or `model_<timestamp>.pkl`), and only then install the
new model as the active pointer.  Returns the state next to the
result/exception; an exception leaves the state as it was (the pointer
assignment on lines 210-211 is only reached after a successful write). -/
def trainModel (env : TrainEnv) (st : MLState) (trainingData : List TrainItem)
    (modelName : Option String) : MLState × Except PyError TrainResult :=
  let texts := trainCorpus trainingData
  let labels := trainingData.map (fun it => it.label)
  match fitTransform texts with
  | .error e => (st, .error e)
  | .ok (vectorizer, x) =>
    match fitCls x labels with
    | .error e => (st, .error e)
    | .ok model =>
      let predictions := x.map (predictCls model)
      let metrics := computeMetrics labels predictions
      let modelData : ModelData :=
        { vectorizer := vectorizer, model := model
          metrics := metrics, training_samples := texts.length }
      let fname :=
        match modelName with
        | some n => n ++ ".pkl"
        | none => "model_" ++ env.now ++ ".pkl"
      if env.saveOk then
        ({ st with
            files := writeFile st.files ⟨fname, env.mtime, .valid modelData⟩
            vectorizer := some vectorizer
            model := some model },
         .ok { model_name := fname, metrics := metrics
               training_samples := texts.length })
      else
        (st, .error (.ioError "failed to write model file"))

/-! ## Listing: `list_models` -/

/-- One entry of the `list_models` result (ml.py:234-240). -/
structure ModelSummary where
  name : String
  path : String
  metrics : Metrics
  training_samples : Nat
  created : Nat
  deriving Repr, DecidableEq

/-- `Path.stem` for a `*.pkl` file name: drop the 4-character suffix. -/
def stemOf (s : String) : String := ⟨s.data.take (s.data.length - 4)⟩

/-- The `try` body of the `list_models` loop: unpickle one file and build
its summary entry; corrupt bytes make `pickle.load` raise, the entry is
skipped with a warning (`none`). -/
def summarize (f : StoredFile) : Option ModelSummary :=
  match f.content with
  | .corrupt _ => none
  | .valid d =>
    some { name := stemOf f.name, path := f.name, metrics := d.metrics
           training_samples := d.training_samples, created := f.mtime }

/-- The comparison of `sorted(models, key=lambda x: x['created'],
reverse=True)`: descending by the `created` field. -/
def createdGe (a b : ModelSummary) : Prop := b.created ≤ a.created

instance : DecidableRel createdGe :=
  fun a b => decidable_of_iff (b.created ≤ a.created) Iff.rfl

instance : IsTotal ModelSummary createdGe :=
  ⟨fun a b => by unfold createdGe; exact (le_total b.created a.created)⟩

instance : IsTrans ModelSummary createdGe :=
  ⟨fun a b c h1 h2 => by unfold createdGe at *; exact le_trans h2 h1⟩

/-- `MLService.list_models` (ml.py:225-248): summarize every readable
`*.pkl` file, skipping corrupt ones, sorted by `created` descending
(Python's stable sort is modeled by Mathlib's stable insertion sort). -/
def listModels (st : MLState) : List ModelSummary :=
  List.insertionSort createdGe ((pklFiles st.files).filterMap summarize)

/-! ## Concrete fixtures used to instantiate the theorems -/

/-- A loaded service state: empty store, two-word vocabulary, a classifier
weighting "win" positively and "meeting" negatively. -/
def stW : MLState := ⟨[], some ⟨["win", "meeting"]⟩, some ⟨[1, -1], 0⟩⟩

/-- An unloaded service state over an empty store. -/
def stEmpty : MLState := ⟨[], none, none⟩

/-- A training environment whose artifact write succeeds. -/
def envW : TrainEnv := ⟨"20240101_000000", 10, true⟩

/-- A training environment whose artifact write raises. -/
def envFail : TrainEnv := ⟨"20240101_000000", 10, false⟩

/-- A previously persisted artifact. -/
def d0 : ModelData := ⟨⟨["old"]⟩, ⟨[0], 0⟩, ⟨1, 1, 1, 1⟩, 99⟩

/-- A store already holding the artifact `m.pkl`. -/
def st6 : MLState := ⟨[⟨"m.pkl", 5, .valid d0⟩], none, none⟩

/-- A two-class training set. -/
def data2 : List TrainItem := [⟨"buy pills", 1⟩, ⟨"meeting today", 0⟩]

/-- Two stores with identical artifact contents and names, differing only
in filesystem modification times. -/
def fsA : List StoredFile := [⟨"a.pkl", 1, .valid d0⟩, ⟨"b.pkl", 2, .valid d0⟩]

def fsB : List StoredFile := [⟨"a.pkl", 2, .valid d0⟩, ⟨"b.pkl", 1, .valid d0⟩]

/-- Two further persisted artifacts. -/
def dA : ModelData := ⟨⟨["x"]⟩, ⟨[1], 0⟩, ⟨1, 1, 1, 1⟩, 3⟩

def dB : ModelData := ⟨⟨["y"]⟩, ⟨[2], 0⟩, ⟨1, 0, 1, 0⟩, 4⟩

/-- A readable artifact file. -/
def fA : StoredFile := ⟨"a.pkl", 1, .valid dA⟩

/-- A store mixing readable artifacts, a corrupt `.pkl` and a non-`.pkl`
file. -/
def stList : MLState :=
  ⟨[fA, ⟨"bad.pkl", 7, .corrupt "garbage"⟩, ⟨"b.pkl", 4, .valid dB⟩,
    ⟨"note.txt", 9, .corrupt "text"⟩], none, none⟩

/-- The concrete result of a successful `predict` call on `stW`. -/
def c2res : PredictResult :=
  (predict stW "Win lottery" "latest").toOption.getD ⟨"", 0, ⟨[], ""⟩, ""⟩

/-- The concrete result of the `predict` call with unknown version
`"v999"`. -/
def c1res : PredictResult :=
  (predict stW "win money" "v999").toOption.getD ⟨"", 0, ⟨[], ""⟩, ""⟩

/-- The concrete result of retraining onto the existing name `m`. -/
def c6res : TrainResult :=
  ((trainModel envW st6 data2 (some "m")).2).toOption.getD ⟨"", ⟨0, 0, 0, 0⟩, 0⟩

/-- The file the mtime-based selection picks out of `fsA`. -/
def c4file : StoredFile := (latestChoice fsA).getD ⟨"", 0, .corrupt ""⟩

/-! ## Properties of the probability link -/

theorem sigmaQ_pos (d : ℚ) : 0 < sigmaQ d := by
  unfold sigmaQ
  have hpos : (0 : ℚ) < 2 * (1 + |d|) := by positivity
  have h1 : -(1/2 : ℚ) < d / (2 * (1 + |d|)) := by
    rw [lt_div_iff₀ hpos]
    have := neg_abs_le d
    nlinarith [abs_nonneg d]
  linarith

theorem sigmaQ_lt_one (d : ℚ) : sigmaQ d < 1 := by
  unfold sigmaQ
  have hpos : (0 : ℚ) < 2 * (1 + |d|) := by positivity
  have h1 : d / (2 * (1 + |d|)) < 1/2 := by
    rw [div_lt_iff₀ hpos]
    have := le_abs_self d
    nlinarith [abs_nonneg d]
  linarith

theorem sigmaQ_gt_half_of_pos {d : ℚ} (h : 0 < d) : 1/2 < sigmaQ d := by
  unfold sigmaQ
  have hpos : (0 : ℚ) < 2 * (1 + |d|) := by positivity
  have := div_pos h hpos
  linarith

theorem sigmaQ_le_half_of_nonpos {d : ℚ} (h : d ≤ 0) : sigmaQ d ≤ 1/2 := by
  unfold sigmaQ
  have hpos : (0 : ℚ) < 2 * (1 + |d|) := by positivity
  have := div_nonpos_of_nonpos_of_nonneg h (le_of_lt hpos)
  linarith

/-! ## C2 -/

/-- C2: for every input on which `predict` succeeds, the returned label is
"spam" or "ham", and the returned confidence — the probability
`predict_proba` assigns to the argmax class chosen by `predict` — lies in
`[1/2, 1]`. -/
theorem predict_label_and_confidence_range (st : MLState) (text mv : String)
    (r : PredictResult) (h : predict st text mv = .ok r) :
    (r.prediction = "spam" ∨ r.prediction = "ham") ∧
    1/2 ≤ r.confidence ∧ r.confidence ≤ 1 := by
  unfold predict at h
  rcases hv : st.vectorizer with _ | v <;> rw [hv] at h <;>
    rcases hm : st.model with _ | c <;> rw [hm] at h <;> simp at h
  subst h
  set d := decisionFun c (transform v (preprocessText text)) with hd
  by_cases hpos : 0 < d
  · have h1 : predictCls c (transform v (preprocessText text)) = 1 := by
      unfold predictCls
      rw [← hd, if_pos hpos]
    simp only [h1, predictProba1, ← hd, List.getD]
    refine ⟨Or.inl rfl, ?_, ?_⟩
    · simpa using le_of_lt (sigmaQ_gt_half_of_pos hpos)
    · simpa using le_of_lt (sigmaQ_lt_one d)
  · have h0 : predictCls c (transform v (preprocessText text)) = 0 := by
      unfold predictCls
      rw [← hd, if_neg hpos]
    simp only [h0, predictProba1, ← hd, List.getD]
    refine ⟨Or.inr rfl, ?_, ?_⟩
    · have := sigmaQ_le_half_of_nonpos (le_of_not_lt hpos)
      simpa using by linarith
    · have := sigmaQ_pos d
      simpa using by linarith

/-- Witness for C2 at a concrete loaded state and text. -/
theorem predict_label_and_confidence_range_witness :
    predict stW "Win lottery" "latest" = .ok c2res ∧
    ((c2res.prediction = "spam" ∨ c2res.prediction = "ham") ∧
      1/2 ≤ c2res.confidence ∧ c2res.confidence ≤ 1) :=
  ⟨rfl,
   predict_label_and_confidence_range stW "Win lottery" "latest" c2res rfl⟩

/-! ## C10 -/

/-- C10: `_generate_explanation` is a pure function of
`(text, predicted label)` — determinism is by construction, since it is
embedded as a function.  Its keyword list is duplicate-free, a keyword is
reported exactly when it belongs to the fixed set of the predicted label
(spam keywords for prediction 1, ham keywords otherwise) and occurs as a
substring of the case-folded text, and the reason string reports the match
count. -/
theorem generateExplanation_spec (text : String) (pred : Nat) :
    (generateExplanation text pred).keywords_found.Nodup ∧
    (∀ k, k ∈ (generateExplanation text pred).keywords_found ↔
      (k ∈ (if pred = 1 then spamKeywords else hamKeywords) ∧
        strContains (pyLower text) k = true)) ∧
    (generateExplanation text pred).reason =
      "Detected " ++
        toString (generateExplanation text pred).keywords_found.length ++
        " relevant keywords" := by
  by_cases hp : pred = 1 <;>
    simp only [generateExplanation, hp, if_pos, if_neg, if_true, if_false,
      reduceIte] <;>
    refine ⟨?_, ?_, trivial⟩
  · exact (by decide : spamKeywords.Nodup).filter _
  · intro k; rw [List.mem_filter]
  · exact (by decide : hamKeywords.Nodup).filter _
  · intro k; rw [List.mem_filter]

/-- Witness for C10 at a concrete text and the spam label. -/
theorem generateExplanation_spec_witness :
    (generateExplanation "Win a FREE lottery now" 1).keywords_found.Nodup ∧
    ("win" ∈ (generateExplanation "Win a FREE lottery now" 1).keywords_found
      ↔ ("win" ∈ (if 1 = 1 then spamKeywords else hamKeywords) ∧
          strContains (pyLower "Win a FREE lottery now") "win" = true)) :=
  ⟨(generateExplanation_spec "Win a FREE lottery now" 1).1,
   (generateExplanation_spec "Win a FREE lottery now" 1).2.1 "win"⟩

/-! ## C1 -/

/-- C1 counterexample: with a loaded model and a store containing no
artifact at all (in particular none named "v999"), a `predict` call with
`model_version = "v999"` succeeds instead of failing with
`ModelNotFoundError`, and simply echoes the unknown version back. -/
theorem predict_unknown_version_succeeds :
    stW.files = [] ∧
    exceptIsOk (predict stW "win money" "v999") = true ∧
    (predict stW "win money" "v999").toOption.map (fun r => r.model_version)
      = some "v999" :=
  ⟨rfl, rfl, rfl⟩

/-- C1 (amended): `predict` never consults the store for `model_version`:
whatever its value, the in-memory active model is used (the result differs
from the `"latest"` call only in the echoed `model_version` field), and the
only error `predict` can raise is the "Model not loaded" `ValueError` —
never `ModelNotFoundError`, regardless of whether the named artifact
exists. -/
theorem predict_ignores_model_version (st : MLState) (text mv : String) :
    ((predict st text mv).map (fun r => { r with model_version := "latest" })
      = (predict st text "latest").map
          (fun r => { r with model_version := "latest" })) ∧
    (∀ r, predict st text mv = .ok r → r.model_version = mv) ∧
    (∀ e, predict st text mv = .error e →
      e = .valueError "Model not loaded") := by
  cases hv : st.vectorizer <;> cases hm : st.model <;>
    simp [predict, hv, hm, Except.map]

/-- Witness for C1 (amended) at a concrete state, text and version. -/
theorem predict_ignores_model_version_witness : c1res.model_version = "v999" :=
  (predict_ignores_model_version stW "win money" "v999").2.1 c1res rfl

/-! ## C8 -/

/-- C8 counterexample: the normalization applied to the example texts at
fit time (none — `train_model` passes the raw `item['text']` values to the
featurizer) differs from the inference-time `_preprocess_text` already on
the input "Hello  World". -/
theorem trainNormalize_ne_preprocessText :
    trainNormalize "Hello  World" ≠ preprocessText "Hello  World" := by
  decide

/-- C8 (amended): inference normalizes with `_preprocess_text`
(case-folding plus whitespace collapsing) while `train_model` applies no
normalization at all — the featurizer is fitted on the raw example texts —
so the two normalizations are not byte-for-byte identical; they disagree on
any text containing uppercase letters or whitespace runs, e.g.
"Hello  World". -/
theorem train_fit_uses_raw_texts :
    (∀ s, trainNormalize s = s) ∧
    (∀ data : List TrainItem,
      trainCorpus data = data.map (fun it => it.text)) ∧
    preprocessText "Hello  World" = "hello world" :=
  ⟨fun _ => rfl, fun _ => rfl, by decide⟩

/-! ## C3 -/

/-- Every error produced by `fitTransform` is the empty-vocabulary
`ValueError`. -/
theorem fitTransform_error_shape (texts : List String) (e : PyError)
    (h : fitTransform texts = .error e) :
    e = .valueError
      "empty vocabulary; perhaps the documents only contain stop words" := by
  unfold fitTransform at h
  by_cases hv : buildVocab texts = [] <;> simp [hv] at h
  exact h.symm

/-- Every error produced by `fitCls` is the two-classes `ValueError`. -/
theorem fitCls_error_shape (X : List (List ℚ)) (y : List Nat) (e : PyError)
    (h : fitCls X y = .error e) :
    e = .valueError
      "This solver needs samples of at least 2 classes in the data" := by
  unfold fitCls at h
  by_cases hl : y.dedup.length < 2 <;> simp [hl] at h
  exact h.symm

/-- `fitCls` rejects label vectors with fewer than two distinct classes. -/
theorem fitCls_single_class (X : List (List ℚ)) (y : List Nat)
    (h : y.dedup.length < 2) :
    fitCls X y = .error (.valueError
      "This solver needs samples of at least 2 classes in the data") := by
  unfold fitCls
  rw [if_pos h]

/-- C3 counterexample: `train_model` on the empty training set does not
fail with `InsufficientDataError`; the failure comes from inside the
featurizer fit, as the library's `ValueError`. -/
theorem train_empty_fails_with_valueError :
    (trainModel envW stEmpty [] none).2
      = .error (.valueError
          "empty vocabulary; perhaps the documents only contain stop words") ∧
    (trainModel envW stEmpty [] none).2 ≠ .error .insufficientData :=
  ⟨rfl, by decide⟩

/-- C3 (amended): `train_model` performs no training-set validation and no
run can ever fail with `InsufficientDataError`; an empty — or more
generally single-class — training set instead fails during fitting (of the
featurizer or of the classifier) with a library `ValueError`. -/
theorem train_never_insufficientData (env : TrainEnv) (st : MLState)
    (data : List TrainItem) (name : Option String) :
    ((trainModel env st data name).2 ≠ .error PyError.insufficientData) ∧
    ((data.map (fun it => it.label)).dedup.length < 2 →
      ∃ m, (trainModel env st data name).2 = .error (.valueError m)) := by
  constructor
  · intro hbad
    simp only [trainModel] at hbad
    rcases hft : fitTransform (trainCorpus data) with e | ⟨v, X⟩ <;>
      rw [hft] at hbad <;> dsimp only at hbad
    · simp at hbad
      rw [fitTransform_error_shape _ _ hft] at hbad
      exact PyError.noConfusion hbad
    · rcases hfc : fitCls X (data.map fun it => it.label) with e2 | c <;>
        rw [hfc] at hbad
      · simp at hbad
        rw [fitCls_error_shape _ _ _ hfc] at hbad
        exact PyError.noConfusion hbad
      · by_cases hs : env.saveOk <;> simp [hs] at hbad
  · intro hlen
    simp only [trainModel]
    rcases hft : fitTransform (trainCorpus data) with e | ⟨v, X⟩ <;>
      dsimp only
    · exact ⟨_, by rw [fitTransform_error_shape _ _ hft]⟩
    · rw [fitCls_single_class X _ hlen]
      exact ⟨_, rfl⟩

/-- Witness for C3 (amended) at the empty training set. -/
theorem train_never_insufficientData_witness :
    ((trainModel envW stEmpty [] none).2 ≠ .error PyError.insufficientData) ∧
    ∃ m, (trainModel envW stEmpty [] none).2 = .error (.valueError m) :=
  ⟨(train_never_insufficientData envW stEmpty [] none).1,
   (train_never_insufficientData envW stEmpty [] none).2 (by decide)⟩

/-! ## C5 -/

/-- The file just written is a member of the directory afterwards. -/
theorem writeFile_mem (fs : List StoredFile) (f : StoredFile) :
    f ∈ writeFile fs f := by
  unfold writeFile
  by_cases h : fs.any (fun g => g.name = f.name) = true
  · rw [if_pos h]
    rcases List.any_eq_true.mp h with ⟨g, hg, hname⟩
    exact List.mem_map.mpr ⟨g, hg, by simp at hname; simp [hname]⟩
  · rw [if_neg h]
    exact List.mem_append_right _ (List.mem_singleton_self f)

/-- C5: write-then-swap ordering.  If the artifact write fails, the
previously active featurizer and classifier are untouched and the call does
not succeed; and whenever a `train_model` call succeeds, the write
succeeded and the active pointer equals exactly the featurizer/classifier
stored in the newly written artifact file. -/
theorem train_swap_only_after_save (env : TrainEnv) (st : MLState)
    (data : List TrainItem) (name : Option String) :
    (env.saveOk = false →
      ((trainModel env st data name).1.vectorizer = st.vectorizer ∧
       (trainModel env st data name).1.model = st.model ∧
       ∀ r, (trainModel env st data name).2 ≠ .ok r)) ∧
    (∀ r, (trainModel env st data name).2 = .ok r →
      env.saveOk = true ∧
      ∃ dta : ModelData,
        (⟨r.model_name, env.mtime, .valid dta⟩ : StoredFile)
            ∈ (trainModel env st data name).1.files ∧
        (trainModel env st data name).1.vectorizer = some dta.vectorizer ∧
        (trainModel env st data name).1.model = some dta.model) := by
  simp only [trainModel]
  rcases hft : fitTransform (trainCorpus data) with e | ⟨v, X⟩ <;>
    (try dsimp only)
  · exact ⟨fun _ => ⟨rfl, rfl, fun r h => Except.noConfusion h⟩,
      fun r h => Except.noConfusion h⟩
  · rcases hfc : fitCls X (data.map fun it => it.label) with e2 | c <;>
      (try rw [hfc]) <;> (try dsimp only)
    · exact ⟨fun _ => ⟨rfl, rfl, fun r h => Except.noConfusion h⟩,
        fun r h => Except.noConfusion h⟩
    · by_cases hs : env.saveOk = true
      · rw [if_pos hs]
        dsimp only
        refine ⟨fun hfalse => Bool.noConfusion (hfalse ▸ hs), fun r h => ?_⟩
        injection h with h
        subst h
        exact ⟨hs,
          ⟨⟨v, c, computeMetrics (data.map fun it => it.label)
              (X.map (predictCls c)), (trainCorpus data).length⟩,
            writeFile_mem st.files _, rfl, rfl⟩⟩
      · rw [if_neg hs]
        dsimp only
        exact ⟨fun _ => ⟨rfl, rfl, fun r h => Except.noConfusion h⟩,
          fun r h => Except.noConfusion h⟩

/-- Witness for C5 at a failing save over a loaded store. -/
theorem train_swap_only_after_save_witness :
    (trainModel envFail st6 data2 (some "m")).1.vectorizer = st6.vectorizer ∧
    (trainModel envFail st6 data2 (some "m")).1.model = st6.model ∧
    ∀ r, (trainModel envFail st6 data2 (some "m")).2 ≠ .ok r :=
  (train_swap_only_after_save envFail st6 data2 (some "m")).1 rfl

/-! ## C6 -/

/-- C6 counterexample: retraining with the caller-supplied name "m" onto a
store that already holds an artifact `m.pkl` succeeds, creates no new
directory entry, and replaces the bytes of the previously persisted
artifact — persisted artifacts are neither immutable nor stored under
collision-free identifiers. -/
theorem train_overwrites_existing_artifact :
    exceptIsOk (trainModel envW st6 data2 (some "m")).2 = true ∧
    st6.files.map (fun f => f.name) = ["m.pkl"] ∧
    (trainModel envW st6 data2 (some "m")).1.files.map (fun f => f.name)
      = ["m.pkl"] ∧
    (trainModel envW st6 data2 (some "m")).1.files.map (fun f => f.content)
      ≠ st6.files.map (fun f => f.content) :=
  ⟨rfl, rfl, rfl, by decide⟩

/-- Directory names after a write: unchanged when the name already existed
(the entry is overwritten), extended by the new name otherwise. -/
theorem writeFile_names (fs : List StoredFile) (f : StoredFile) :
    (writeFile fs f).map (fun g => g.name)
      = if fs.any (fun g => g.name = f.name)
        then fs.map (fun g => g.name)
        else fs.map (fun g => g.name) ++ [f.name] := by
  unfold writeFile
  by_cases h : fs.any (fun g => g.name = f.name) = true
  · rw [if_pos h, if_pos h, List.map_map]
    refine List.map_congr_left (fun g _ => ?_)
    dsimp only [Function.comp]
    by_cases hg : g.name = f.name
    · rw [if_pos hg]; exact hg.symm
    · rw [if_neg hg]
  · rw [if_neg h, if_neg h, List.map_append]
    rfl

/-- C6 (amended): a training run with a caller-supplied `model_name` writes
the artifact to `model_name.pkl`; when an artifact of that name already
exists it is overwritten in place (the set of stored names does not grow),
so identifiers are not collision-free and persisted artifacts are not
immutable.  (Without a name the identifier is `model_<timestamp>.pkl` with
one-second resolution, unique only per second.) -/
theorem train_named_artifact_overwrites (env : TrainEnv) (st : MLState)
    (data : List TrainItem) (n : String) :
    ∀ r, (trainModel env st data (some n)).2 = .ok r →
      r.model_name = n ++ ".pkl" ∧
      (trainModel env st data (some n)).1.files.map (fun f => f.name)
        = (if st.files.any (fun g => g.name = n ++ ".pkl")
           then st.files.map (fun f => f.name)
           else st.files.map (fun f => f.name) ++ [n ++ ".pkl"]) := by
  intro r h
  simp only [trainModel] at h ⊢
  rcases hft : fitTransform (trainCorpus data) with e | ⟨v, X⟩ <;>
    (try rw [hft] at h) <;> (try dsimp only at h ⊢)
  · exact Except.noConfusion h
  · rcases hfc : fitCls X (data.map fun it => it.label) with e2 | c <;>
      (try rw [hfc] at h) <;> (try rw [hfc]) <;> (try dsimp only at h ⊢)
    · exact Except.noConfusion h
    · by_cases hs : env.saveOk = true
      · rw [if_pos hs] at h ⊢
        dsimp only at h ⊢
        injection h with h
        subst h
        exact ⟨rfl, writeFile_names st.files _⟩
      · rw [if_neg hs] at h
        exact Except.noConfusion h

/-- Witness for C6 (amended): the concrete overwrite run. -/
theorem train_named_artifact_overwrites_witness :
    c6res.model_name = "m" ++ ".pkl" ∧
    (trainModel envW st6 data2 (some "m")).1.files.map (fun f => f.name)
      = (if st6.files.any (fun g => g.name = "m" ++ ".pkl")
         then st6.files.map (fun f => f.name)
         else st6.files.map (fun f => f.name) ++ ["m" ++ ".pkl"]) :=
  train_named_artifact_overwrites envW st6 data2 "m" c6res rfl

/-! ## C4 -/

/-- C4 counterexample: two stores whose artifact contents (and names) are
identical byte for byte, differing only in filesystem modification times,
make `_load_latest_model` select different artifacts — the selection
compares storage-layer timestamps, not any `created_at` metadata recorded
inside the artifacts (the pickled dict stores none). -/
theorem latest_selection_depends_on_mtime :
    fsA.map (fun f => f.content) = fsB.map (fun f => f.content) ∧
    fsA.map (fun f => f.name) = fsB.map (fun f => f.name) ∧
    (latestChoice fsA).map (fun f => f.name) = some "b.pkl" ∧
    (latestChoice fsB).map (fun f => f.name) = some "a.pkl" :=
  ⟨by decide, rfl, rfl, rfl⟩

/-- The Python `max(files, key=mtime)` fold returns a member of maximal
modification time. -/
theorem maxByMtime_spec (f : StoredFile) (fs : List StoredFile) :
    maxByMtime f fs ∈ f :: fs ∧
    ∀ g ∈ f :: fs, g.mtime ≤ (maxByMtime f fs).mtime := by
  induction fs generalizing f with
  | nil =>
    refine ⟨List.mem_singleton_self f, fun g hg => ?_⟩
    rw [List.mem_singleton.mp hg]
    exact le_refl _
  | cons b bs ih =>
    have step : maxByMtime f (b :: bs)
        = maxByMtime (if f.mtime < b.mtime then b else f) bs := rfl
    obtain ⟨hmem, hmax⟩ := ih (if f.mtime < b.mtime then b else f)
    constructor
    · rw [step]
      rcases List.mem_cons.mp hmem with hh | hh
      · rw [hh]
        by_cases hlt : f.mtime < b.mtime
        · rw [if_pos hlt]
          exact List.mem_cons_of_mem f (List.mem_cons_self b bs)
        · rw [if_neg hlt]
          exact List.mem_cons_self f (b :: bs)
      · exact List.mem_cons_of_mem f (List.mem_cons_of_mem b hh)
    · intro g hg
      rw [step]
      rcases List.mem_cons.mp hg with hh | hh
      · rw [hh]
        refine le_trans ?_ (hmax _ (List.mem_cons_self _ bs))
        by_cases hlt : f.mtime < b.mtime
        · rw [if_pos hlt]; exact le_of_lt hlt
        · rw [if_neg hlt]
      · rcases List.mem_cons.mp hh with hb | hbs
        · rw [hb]
          refine le_trans ?_ (hmax _ (List.mem_cons_self _ bs))
          by_cases hlt : f.mtime < b.mtime
          · rw [if_pos hlt]
          · rw [if_neg hlt]; exact le_of_not_lt hlt
        · exact hmax g (List.mem_cons_of_mem _ hbs)

/-- C4 (amended): the latest-model selection picks a stored `.pkl` file of
maximal filesystem modification time (`st_mtime`); artifacts carry no
internal `created_at` metadata, so storage-layer timestamps are exactly
what is compared. -/
theorem latestChoice_is_mtime_max (fs : List StoredFile) (g : StoredFile)
    (h : latestChoice fs = some g) :
    g ∈ pklFiles fs ∧ ∀ f ∈ pklFiles fs, f.mtime ≤ g.mtime := by
  unfold latestChoice at h
  rcases hp : pklFiles fs with _ | ⟨f, rest⟩ <;> (try rw [hp] at h) <;>
    (try dsimp only at h)
  · exact Option.noConfusion h
  · injection h with h
    subst h
    exact maxByMtime_spec f rest

/-- Witness for C4 (amended) at the concrete store `fsA`. -/
theorem latestChoice_is_mtime_max_witness :
    c4file ∈ pklFiles fsA ∧ ∀ f ∈ pklFiles fsA, f.mtime ≤ c4file.mtime :=
  latestChoice_is_mtime_max fsA c4file rfl

/-! ## C7 -/

/-- C7 counterexample: bootstrapping on an empty registry sets the
in-memory pointer but persists nothing — the store is still empty
afterwards, so the default artifact is never written through any save
operation. -/
theorem bootstrap_writes_nothing :
    (loadLatestModel stEmpty).files = [] ∧
    (loadLatestModel stEmpty).vectorizer.isSome = true ∧
    (loadLatestModel stEmpty).model.isSome = true :=
  ⟨rfl, rfl, rfl⟩

/-- C7 (amended): on an empty registry the engine does construct a default
model from the fixed six-example seed set — which contains both a spam and
a ham label — and installs it as the active in-memory pointer, but it is
never persisted: `_create_default_model` leaves the store exactly as it
found it. -/
theorem bootstrap_in_memory_only (st : MLState) :
    (createDefaultModel st).files = st.files ∧
    ((loadLatestModel stEmpty).vectorizer.isSome = true ∧
     (loadLatestModel stEmpty).model.isSome = true) ∧
    (1 ∈ dummyLabels ∧ 0 ∈ dummyLabels ∧
      dummyTexts.length = dummyLabels.length) := by
  refine ⟨?_, ⟨rfl, rfl⟩, by decide⟩
  unfold createDefaultModel
  rcases fitTransform dummyTexts with e | ⟨v, X⟩
  · rfl
  · dsimp only
    rcases fitCls X dummyLabels with e2 | c
    · rfl
    · rfl

/-! ## C9 -/

/-- C9: `list_models` returns the summaries of exactly the stored `.pkl`
files whose bytes deserialize, sorted descending by the `created`
timestamp; a corrupt entry yields no summary (it is skipped with a warning)
and so never fails the listing or appears in it. -/
theorem listModels_sorted_skips_corrupt (st : MLState) :
    (listModels st).Sorted createdGe ∧
    (listModels st).Perm ((pklFiles st.files).filterMap summarize) ∧
    (∀ m ∈ listModels st, ∃ f ∈ pklFiles st.files,
      summarize f = some m ∧ ∃ d, f.content = .valid d) ∧
    (∀ f ∈ pklFiles st.files, ∀ d, f.content = .valid d →
      (⟨stemOf f.name, f.name, d.metrics, d.training_samples, f.mtime⟩ :
        ModelSummary) ∈ listModels st) := by
  refine ⟨List.sorted_insertionSort createdGe _,
    List.perm_insertionSort createdGe _, ?_, ?_⟩
  · intro m hm
    have hm2 : m ∈ (pklFiles st.files).filterMap summarize :=
      (List.perm_insertionSort createdGe _).subset hm
    rcases List.mem_filterMap.mp hm2 with ⟨f, hf, hsum⟩
    refine ⟨f, hf, hsum, ?_⟩
    rcases hc : f.content with d | tag
    · exact ⟨d, rfl⟩
    · unfold summarize at hsum
      rw [hc] at hsum
      exact Option.noConfusion hsum
  · intro f hf d hd
    have hsum : summarize f
        = some ⟨stemOf f.name, f.name, d.metrics, d.training_samples,
            f.mtime⟩ := by
      unfold summarize
      rw [hd]
    exact (List.perm_insertionSort createdGe _).mem_iff.mpr
      (List.mem_filterMap.mpr ⟨f, hf, hsum⟩)

/-- Witness for C9 at a concrete store holding both readable and corrupt
artifacts. -/
theorem listModels_sorted_skips_corrupt_witness :
    (listModels stList).Sorted createdGe ∧
    (⟨stemOf fA.name, fA.name, dA.metrics, dA.training_samples, fA.mtime⟩ :
      ModelSummary) ∈ listModels stList :=
  ⟨(listModels_sorted_skips_corrupt stList).1,
   (listModels_sorted_skips_corrupt stList).2.2.2 fA (by decide) dA rfl⟩

end SpamGuard
